import Mathlib

/-!
Verification of the domain lifecycle manager of `src/core/ddsc/src/dds_domain.c`
(Eclipse Cyclone DDS).  The C source is shallowly embedded: each C function the
claims mention becomes a Lean function over an explicit state; effects on
external collaborators (RTPS stack, builtin topics, entity primitive, shared
memory monitor, thread liveliness monitor) are recorded as action traces;
calls whose outcome is decided outside this translation unit (entity pin,
XML parsing, RTPS init, thread monitor creation, asynchronous type
resolution) are supplied as explicit environment parameters.  The build is
modelled with `DDS_HAS_SHM` and `DDS_HAS_TYPE_DISCOVERY` enabled, matching
the feature set described by the specification (shared-memory monitor and
type resolution are both in scope there).
-/

namespace CycloneDDS

/-! ### Return codes (dds/ddsrt/retcode.h) and time constants (dds/ddsrt/time.h) -/

def DDS_RETCODE_OK : Int := 0
def DDS_RETCODE_ERROR : Int := -1
def DDS_RETCODE_BAD_PARAMETER : Int := -3
def DDS_RETCODE_PRECONDITION_NOT_MET : Int := -4
def DDS_RETCODE_OUT_OF_RESOURCES : Int := -5
def DDS_RETCODE_ALREADY_DELETED : Int := -9
def DDS_RETCODE_TIMEOUT : Int := -10
def DDS_RETCODE_NO_DATA : Int := -11
def DDS_RETCODE_ILLEGAL_OPERATION : Int := -12

/-- `DDS_DOMAIN_DEFAULT` (= `0xffffffff`), the sentinel domain id. -/
def DDS_DOMAIN_DEFAULT : Nat := 0xffffffff

/-- `DDS_INFINITY` (= `INT64_MAX`), the maximum `dds_duration_t`. -/
def DDS_INFINITY : Int := 2 ^ 63 - 1

/-- `DDS_NEVER` (= `INT64_MAX`), the absolute time that never arrives. -/
def DDS_NEVER : Int := 2 ^ 63 - 1

/-! ### Type resolution waiter (`wait_for_type_resolved`, lines 435-533)

The per-domain type library is external state (`gv->typelib_lock` guarded);
the record for the requested type identifier is abstracted to the facts the
waiter inspects: the cached sertype (`ddsi_type_sertype`), resolution status
with and without dependencies (`ddsi_type_resolved gv type deps`), and the
materializable type object (`ddsi_type_get_typeobj`).  Pointers are `Option
Nat` (`none` = NULL). -/

/-- Abstract view of one `struct ddsi_type` record of a domain's type library. -/
structure TypeRecord where
  sertype : Option Nat
  resolvedBasic : Bool
  resolvedDeps : Bool
  typeobj : Option Nat
  deriving Repr, DecidableEq

/-- `ddsi_type_resolved gv type include_deps` on the abstracted record. -/
def TypeRecord.resolved (t : TypeRecord) (include_deps : Bool) : Bool :=
  if include_deps then t.resolvedDeps else t.resolvedBasic

/-- Outcome of `dds_entity_pin`: a failure code, or a pinned entity of which
the waiter only inspects whether `m_domain` is non-NULL. -/
inductive PinOutcome where
  | badParameter
  | alreadyDeleted
  | pinned (hasDomain : Bool)
  deriving Repr, DecidableEq

/-- The `while (!ddsi_type_resolved ...) { if (!ddsrt_cond_waituntil ...) break; }`
loop (lines 504-508).  `r` is the record state observed when the typelib lock is
re-acquired; `wakeups` are the successive states observed after each
`ddsrt_cond_waituntil` that returns before the absolute deadline; an exhausted
list models `ddsrt_cond_waituntil` returning false (deadline passed), which
breaks the loop with the last observed state. -/
def waitLoop (include_deps : Bool) : TypeRecord → List TypeRecord → TypeRecord
  | r, [] => r
  | r, r' :: rest => if r.resolved include_deps then r else waitLoop include_deps r' rest

/-- Result of the waiter: return code, final contents of the two out
parameters (`*sertype`, `*type_obj`), and whether `ddsi_tl_request_type`
was invoked. -/
structure WaitResult where
  rc : Int
  sertypeOut : Option Nat
  typeobjOut : Option Nat
  requested : Bool
  deriving Repr, DecidableEq

/-- `wait_for_type_resolved` (lines 435-533).

* `typeIdNone`/`typeIdHash`: `ddsi_typeid_is_none`/`ddsi_typeid_is_hash` of the
  argument type id.
* `pin`: outcome of `dds_entity_pin` together with `m_domain != NULL`.
* `wantSertype`/`wantTypeObj`: whether the `sertype` resp. `type_obj` out
  parameters are non-NULL; `sertype0`/`typeobj0` are their initial contents.
* `lookup`: result of `ddsi_type_lookup_locked` (`none` = no record).
* `requestOk`: result of `ddsi_tl_request_type`.
* `relocked`/`wakeups`: environment of the wait loop (see `waitLoop`). -/
def wait_for_type_resolved
    (typeIdNone typeIdHash : Bool) (pin : PinOutcome) (timeout : Int)
    (wantSertype wantTypeObj : Bool) (sertype0 typeobj0 : Option Nat)
    (lookup : Option TypeRecord) (requestOk : Bool)
    (relocked : TypeRecord) (wakeups : List TypeRecord) : WaitResult :=
  -- in case a sertype is requested, dependent types must also be resolved
  let include_deps := wantSertype
  if typeIdNone || !typeIdHash then
    ⟨DDS_RETCODE_BAD_PARAMETER, sertype0, typeobj0, false⟩
  else
    match pin with
    | .badParameter => ⟨DDS_RETCODE_BAD_PARAMETER, sertype0, typeobj0, false⟩
    | .alreadyDeleted => ⟨DDS_RETCODE_ALREADY_DELETED, sertype0, typeobj0, false⟩
    | .pinned hasDomain =>
      if !hasDomain then
        ⟨DDS_RETCODE_ILLEGAL_OPERATION, sertype0, typeobj0, false⟩
      else
        match lookup with
        | none => ⟨DDS_RETCODE_PRECONDITION_NOT_MET, sertype0, typeobj0, false⟩
        | some t =>
          if wantSertype && (t.sertype).isSome then
            ⟨DDS_RETCODE_OK, t.sertype, typeobj0, false⟩
          else if wantTypeObj && t.resolved false then
            ⟨DDS_RETCODE_OK, sertype0, t.typeobj, false⟩
          else if timeout = 0 then
            ⟨DDS_RETCODE_TIMEOUT, sertype0, typeobj0, false⟩
          else if !requestOk then
            ⟨DDS_RETCODE_PRECONDITION_NOT_MET, sertype0, typeobj0, true⟩
          else
            -- *sertype = NULL before waiting (line 502)
            let s1 : Option Nat := if wantSertype then none else sertype0
            let final := waitLoop include_deps relocked wakeups
            if final.resolved include_deps then
              { rc := DDS_RETCODE_OK
                sertypeOut := if wantSertype then final.sertype else s1
                typeobjOut := if wantTypeObj then final.typeobj else typeobj0
                requested := true }
            else
              ⟨DDS_RETCODE_OK, s1, typeobj0, true⟩

/-- The absolute deadline computation of `wait_for_type_resolved` (line 500):
`(DDS_INFINITY - timeout <= tnow) ? DDS_NEVER : (tnow + timeout)`. -/
def wait_abstimeout (tnow timeout : Int) : Int :=
  if DDS_INFINITY - timeout ≤ tnow then DDS_NEVER else tnow + timeout

/-- `dds_resolve_type` (lines 535-538). -/
def dds_resolve_type
    (typeIdNone typeIdHash : Bool) (pin : PinOutcome) (timeout : Int)
    (wantSertype : Bool) (sertype0 : Option Nat)
    (lookup : Option TypeRecord) (requestOk : Bool)
    (relocked : TypeRecord) (wakeups : List TypeRecord) : WaitResult :=
  wait_for_type_resolved typeIdNone typeIdHash pin timeout wantSertype false
    sertype0 none lookup requestOk relocked wakeups

/-- `dds_get_typeobj` (lines 540-545): rejects a NULL `type_obj` out
parameter, else delegates. -/
def dds_get_typeobj
    (typeIdNone typeIdHash : Bool) (pin : PinOutcome) (timeout : Int)
    (wantTypeObj : Bool) (typeobj0 : Option Nat)
    (lookup : Option TypeRecord) (requestOk : Bool)
    (relocked : TypeRecord) (wakeups : List TypeRecord) : WaitResult :=
  if !wantTypeObj then ⟨DDS_RETCODE_BAD_PARAMETER, none, typeobj0, false⟩
  else wait_for_type_resolved typeIdNone typeIdHash pin timeout false true
    none typeobj0 lookup requestOk relocked wakeups

/-! ### Domains, the registry, and the thread liveliness monitor singleton

A `DomainSt` abstracts `struct dds_domain` to the fields this translation
unit reads or writes: its resolved id (`m_id`), entity handle, instance id,
the closed flag of its handle link, ownership refcount and pin count of its
entity, the copied-in configuration (`gv.config`), and whether a parser
state (`cfgst`) is owned.  The registry (`dds_global.m_domains`) is the AVL
tree keyed by `m_id`, embedded as a strictly-sorted list; the thread
liveliness monitor singleton is `dds_global.threadmon` plus
`dds_global.threadmon_count`. -/

/-- The configuration fields of `struct ddsi_config` this file inspects;
`extra` stands for all remaining configuration content (copied verbatim on
the raw path). -/
structure Config where
  domainId : Nat
  liveliness_monitoring : Bool
  enable_shm : Bool
  whc_batch : Bool
  extra : Nat
  deriving Repr, DecidableEq

/-- Abstraction of `struct dds_domain`. -/
structure DomainSt where
  m_id : Nat
  hdl : Int
  iid : Nat
  closed : Bool
  refcount : Nat
  pins : Nat
  config : Config
  hasCfgst : Bool
  deriving Repr, DecidableEq

/-- External calls this unit performs, recorded as trace actions. -/
inductive Act where
  | entityInit
  | configResolve (parsed : Bool)
  | rtpsConfigPrep
  | rtpsInit
  | shmMonitorInit
  | threadmonAcquire
  | builtinInit
  | rtpsStart
  | threadmonRegisterDomain
  | entityInitComplete
  | rtpsStop
  | builtinFini
  | threadmonUnregisterDomain
  | shmMonitorDestroy
  | rtpsFini
  | threadmonNew
  | threadmonStart
  | threadmonStop
  | threadmonFree
  | avlDelete
  | finalDeinitBeforeFree
  | configFini
  | handleDelete
  | freeDomain
  | condBroadcast
  deriving Repr, DecidableEq

/-- `dds_global.threadmon` (`inst`: instance pointer non-NULL) and
`dds_global.threadmon_count`, both guarded by `dds_global.m_mutex`. -/
structure MonSt where
  count : Int
  inst : Bool
  deriving Repr, DecidableEq

/-- Lines 152-172 together with the cleanup labels they branch to, for a
domain with `liveliness_monitoring` set: increment `threadmon_count`; if it
was zero, create and start the monitor.  `newOk`/`startOk` are the outcomes
of `ddsi_threadmon_new` / `ddsi_threadmon_start`.

Failure targets are distinct: on `ddsi_threadmon_new` failure the NULL
result has been assigned to `dds_global.threadmon` and `goto
fail_threadmon_new` (line 162) lands at line 198 — *past* the
`--dds_global.threadmon_count` of line 193 — so the increment is never
rolled back and the count stays positive with no instance.  On
`ddsi_threadmon_start` failure, `goto fail_threadmon_start` (line 169)
lands at line 192: the stop of line 191 is skipped, the count is
decremented, and the instance is freed when the count reaches zero.  The
action list records the effectful external calls that succeeded. -/
def threadmon_acquire (newOk startOk : Bool) (m : MonSt) : MonSt × Except Int Unit × List Act :=
  let old := m.count
  let m1 : MonSt := ⟨old + 1, m.inst⟩
  if old = 0 then
    if !newOk then
      (⟨m1.count, false⟩, .error DDS_RETCODE_OUT_OF_RESOURCES, [])
    else
      let m2 : MonSt := ⟨m1.count, true⟩
      if !startOk then
        let c := m2.count - 1
        (⟨c, if c = 0 then false else m2.inst⟩, .error DDS_RETCODE_ERROR,
          [Act.threadmonNew, Act.threadmonFree])
      else (m2, .ok (), [Act.threadmonNew, Act.threadmonStart])
  else (m1, .ok (), [])

/-- The `fail_rtps_start`/`fail_threadmon_start` monitor unwind (lines
190-197), for a domain with `liveliness_monitoring` set: stop the monitor if
this domain's acquire made the count 1, decrement the count, free the
instance when the count reaches zero. -/
def threadmon_unwind_after_start (m : MonSt) : MonSt × List Act :=
  let stopActs := if m.count = 1 then [Act.threadmonStop] else []
  let c := m.count - 1
  if c = 0 then (⟨c, false⟩, stopActs ++ [Act.threadmonFree])
  else (⟨c, m.inst⟩, stopActs)

/-- The teardown-side monitor release (lines 337-341), for a domain with
`liveliness_monitoring` set: decrement the count and, when it reaches zero,
stop and free the singleton. -/
def threadmon_release (m : MonSt) : MonSt × List Act :=
  let c := m.count - 1
  if c = 0 then (⟨c, false⟩, [Act.threadmonStop, Act.threadmonFree])
  else (⟨c, m.inst⟩, [])

/-! ### The domain registry (`dds_global.m_domains`) -/

/-- The registry: domains sorted by strictly increasing `m_id` (the AVL tree
`dds_domaintree_def` keyed by `m_id` with comparator `dds_domain_compare`). -/
abbrev Registry := List DomainSt

/-- Key-sortedness invariant of the AVL-tree embedding. -/
def RegSorted (doms : Registry) : Prop :=
  doms.Pairwise (fun a b => a.m_id < b.m_id)

/-- `dds_domain_find_locked` (lines 209-212): lookup by id
(`ddsrt_avl_lookup` on the key-sorted embedding). -/
def dds_domain_find_locked (doms : Registry) (id : Nat) : Option DomainSt :=
  match doms with
  | [] => none
  | d :: rest => if d.m_id = id then some d else dds_domain_find_locked rest id

/-- `ddsrt_avl_find_min` on the sorted embedding. -/
def avl_find_min (doms : Registry) : Option DomainSt := doms.head?

/-- `ddsrt_avl_insert`: insert keeping the key order. -/
def avl_insert (d : DomainSt) : Registry → Registry
  | [] => [d]
  | x :: xs => if d.m_id < x.m_id then d :: x :: xs else x :: avl_insert d xs

/-- `ddsrt_avl_delete`: remove the node with the given key. -/
def avl_delete (doms : Registry) (id : Nat) : Registry :=
  doms.filter (fun d => d.m_id ≠ id)

/-- In-place field update of the domain with key `id` (mutation through the
pointer obtained from the lookup). -/
def regUpdate (doms : Registry) (id : Nat) (d' : DomainSt) : Registry :=
  doms.map (fun x => if x.m_id = id then d' else x)

/-! ### Domain initialization (`dds_domain_init`, lines 69-207) -/

/-- The `struct config_source` tagged union (lines 61-67). -/
inductive ConfigSource where
  | raw (cfg : Config)
  | xml (text : String)

/-- Outcomes of the external calls `dds_domain_init` makes:
`entityInit` is the result of `dds_entity_init` (a fresh positive handle, or
a negative error); `iid` the value of `ddsi_iid_gen`; `parse` the result of
`ddsi_config_init` for XML sources (`none` = parse failure, `some c` = the
parsed configuration, for which the parser guarantees
`domain_id = DDS_DOMAIN_DEFAULT ∨ c.domainId = domain_id`, the assertion of
line 119); the `Ok` flags the results of `rtps_config_prep`, `rtps_init`,
`ddsi_threadmon_new`, `ddsi_threadmon_start` and `rtps_start`. -/
structure InitEnv where
  entityInit : Except Int Int
  iid : Nat
  parse : Option Config
  rtpsConfigPrepOk : Bool
  rtpsInitOk : Bool
  threadmonNewOk : Bool
  threadmonStartOk : Bool
  rtpsStartOk : Bool

/-- Result of `dds_domain_init`: the returned handle-or-error `domh`, the
initialized domain fields (meaningful only when `0 ≤ domh`), the monitor
singleton state after the call, the completed forward steps, and the actions
performed by the `fail_*` unwind chain (empty on success). -/
structure InitResult where
  domh : Int
  dom : DomainSt
  mon : MonSt
  fwd : List Act
  undo : List Act
  deriving Repr, DecidableEq

/-- Placeholder for the domain fields of a failed initialization (the C
object holds indeterminate content and is freed by the caller). -/
def dummyDomain : DomainSt :=
  ⟨0, 0, 0, false, 0, 0, ⟨0, false, false, false, 0⟩, false⟩

/-- Step 2 of initialization, the `switch (config->kind)` of lines 102-121:
resolve the configuration and the parser state.  Returns `none` on parse
failure, else the resulting `gv.config` and whether `cfgst` is owned. -/
def resolveConfig (domain_id : Nat) (config : ConfigSource) (env : InitEnv) :
    Option (Config × Bool) :=
  match config with
  | .raw c =>
    some (if domain_id ≠ DDS_DOMAIN_DEFAULT then { c with domainId := domain_id } else c, false)
  | .xml _ =>
    match env.parse with
    | none => none
    | some c => some (c, true)

/-- `dds_domain_init` (lines 69-207).  The function mutates
`dds_global.threadmon`/`threadmon_count` (it runs with `dds_global.m_mutex`
held, taken by its caller), so it threads `MonSt` through.  Forward steps
are recorded in `fwd` in execution order; on a failure the actions of the
`goto fail_*` chain are recorded in `undo`. -/
def dds_domain_init (env : InitEnv) (domain_id : Nat) (config : ConfigSource)
    (mon : MonSt) : InitResult :=
  match env.entityInit with
  | .error e => ⟨e, dummyDomain, mon, [], []⟩
  | .ok domh =>
    match resolveConfig domain_id config env with
    | none =>
      -- fail_config (line 204): only the entity registration is undone
      ⟨DDS_RETCODE_ERROR, dummyDomain, mon, [Act.entityInit], [Act.handleDelete]⟩
    | some (cfg, hasCfgst) =>
      let dom : DomainSt :=
        { m_id := cfg.domainId, hdl := domh, iid := env.iid, closed := false,
          refcount := 1, pins := 1, config := cfg, hasCfgst := hasCfgst }
      let fwd2 := [Act.entityInit, Act.configResolve hasCfgst]
      let cfgUndo : List Act := if hasCfgst then [Act.configFini] else []
      if !env.rtpsConfigPrepOk then
        -- fail_rtps_config (line 201)
        ⟨DDS_RETCODE_ERROR, dom, mon, fwd2, cfgUndo ++ [Act.handleDelete]⟩
      else
        let fwd3 := fwd2 ++ [Act.rtpsConfigPrep]
        if !env.rtpsInitOk then
          -- fail_rtps_init (line 200)
          ⟨DDS_RETCODE_ERROR, dom, mon, fwd3, cfgUndo ++ [Act.handleDelete]⟩
        else
          let fwd4 := fwd3 ++ [Act.rtpsInit]
            ++ (if cfg.enable_shm then [Act.shmMonitorInit] else [])
          let acq := if cfg.liveliness_monitoring
            then threadmon_acquire env.threadmonNewOk env.threadmonStartOk mon
            else (mon, .ok (), [])
          match acq.2.1 with
          | .error e =>
            -- fail_threadmon_new / fail_threadmon_start (lines 192-198);
            -- the count rollback is internal to `threadmon_acquire`
            ⟨e, dom, acq.1, fwd4, [Act.rtpsFini] ++ cfgUndo ++ [Act.handleDelete]⟩
          | .ok _ =>
            let mon1 := acq.1
            let fwd5 := fwd4
              ++ (if cfg.liveliness_monitoring then [Act.threadmonAcquire] else [])
              ++ [Act.builtinInit]
            if !env.rtpsStartOk then
              -- fail_rtps_start (lines 188-197)
              let mu := if cfg.liveliness_monitoring
                then threadmon_unwind_after_start mon1
                else (mon1, [])
              ⟨DDS_RETCODE_ERROR, dom, mu.1, fwd5,
                [Act.builtinFini] ++ mu.2 ++ [Act.rtpsFini] ++ cfgUndo ++ [Act.handleDelete]⟩
            else
              ⟨domh, dom, mon1,
                fwd5 ++ [Act.rtpsStart]
                  ++ (if cfg.liveliness_monitoring then [Act.threadmonRegisterDomain] else [])
                  ++ [Act.entityInitComplete],
                []⟩

/-! ### Creation protocol (`dds_domain_create_internal_xml_or_raw`, lines 214-269) -/

/-- Outcome of one pass over the body of the `retry:` loop, up to the point
where the registry lookup result has been classified. -/
inductive Attempt where
  | preconditionNotMet
  | wait
  | share (d : DomainSt)
  | fresh
  deriving Repr, DecidableEq

/-- Lines 222-239: look up by id (or minimum-keyed entry for the sentinel),
and classify: found and explicit → precondition violation; found, implicit
and closed → wait on `dds_global.m_cond` and retry; found, implicit, open →
share; not found → fresh initialization. -/
def lookupAttempt (doms : Registry) (id : Nat) (implicit : Bool) : Attempt :=
  let dom := if id ≠ DDS_DOMAIN_DEFAULT then dds_domain_find_locked doms id
             else avl_find_min doms
  match dom with
  | some d =>
    if !implicit then .preconditionNotMet
    else if d.closed then .wait else .share d
  | none => .fresh

/-- The `retry:` loop.  Each `ddsrt_cond_wait` releases `dds_global.m_mutex`;
`snaps` lists the registry contents observed at each re-acquisition.  `none`
models the caller still blocked after all supplied snapshots. -/
def createRetry (id : Nat) (implicit : Bool) : Registry → List Registry →
    Option (Attempt × Registry)
  | doms, snaps =>
    match lookupAttempt doms id implicit with
    | .wait =>
      match snaps with
      | [] => none
      | s :: rest => createRetry id implicit s rest
    | a => some (a, doms)

/-- `dds_entity_add_ref_locked` plus `dds_handle_repin` (lines 240-241 and
259-260). -/
def shareDomain (d : DomainSt) : DomainSt :=
  { d with refcount := d.refcount + 1, pins := d.pins + 1 }

/-- Result of `dds_domain_create_internal_xml_or_raw`: the returned
handle-or-error, the registry afterwards, `*domain_out` (written only on
success), and whether the freshly allocated domain object was released again
(`dds_free (dom)` of line 251). -/
structure CreateRes where
  domh : Int
  doms : Registry
  dom_out : Option DomainSt
  freedAlloc : Bool
  deriving Repr, DecidableEq

/-- `dds_domain_create_internal_xml_or_raw` (lines 214-269).  `initRes`
abstracts the `dds_domain_init` call of line 250 (see `dds_domain_init` for
the concrete instantiation): an error code, or the initialized domain. -/
def dds_domain_create_internal_xml_or_raw (doms : Registry) (id : Nat)
    (implicit : Bool) (initRes : Except Int DomainSt) (snaps : List Registry) :
    Option CreateRes :=
  match createRetry id implicit doms snaps with
  | none => none
  | some (.wait, _) => none  -- unreachable: `createRetry` never yields `.wait`
  | some (.preconditionNotMet, ds) =>
    some ⟨DDS_RETCODE_PRECONDITION_NOT_MET, ds, none, false⟩
  | some (.share d, ds) =>
    let d' := shareDomain d
    some ⟨d'.hdl, regUpdate ds d.m_id d', some d', false⟩
  | some (.fresh, ds) =>
    match initRes with
    | .error rc => some ⟨rc, ds, none, true⟩  -- dds_free (dom); nothing inserted
    | .ok dnew =>
      let d' := if implicit then shareDomain dnew else dnew
      some ⟨d'.hdl, avl_insert d' ds, some d', false⟩

/-! ### Public creation entry points (lines 277-316) -/

/-- `dds_create_domain` (lines 277-296).  `ddsInit` is the outcome of
`dds_init`; a NULL `config_xml` is substituted by `""` (lines 285-286), not
rejected. -/
def dds_create_domain (domain : Nat) (config_xml : Option String)
    (ddsInit : Except Int Unit) (doms : Registry)
    (initRes : Except Int DomainSt) (snaps : List Registry) : Int × Registry :=
  if domain = DDS_DOMAIN_DEFAULT then (DDS_RETCODE_BAD_PARAMETER, doms)
  else
    let _xml := config_xml.getD ""  -- lines 285-286
    match ddsInit with
    | .error rc => (rc, doms)
    | .ok _ =>
      match dds_domain_create_internal_xml_or_raw doms domain false initRes snaps with
      | none => (DDS_RETCODE_ERROR, doms)  -- unreachable: explicit creation never waits
      | some r => (r.domh, r.doms)

/-- `dds_create_domain_with_rawconfig` (lines 298-316). -/
def dds_create_domain_with_rawconfig (domain : Nat) (config_raw : Option Config)
    (ddsInit : Except Int Unit) (doms : Registry)
    (initRes : Except Int DomainSt) (snaps : List Registry) : Int × Registry :=
  if domain = DDS_DOMAIN_DEFAULT then (DDS_RETCODE_BAD_PARAMETER, doms)
  else if config_raw = none then (DDS_RETCODE_BAD_PARAMETER, doms)
  else
    match ddsInit with
    | .error rc => (rc, doms)
    | .ok _ =>
      match dds_domain_create_internal_xml_or_raw doms domain false initRes snaps with
      | none => (DDS_RETCODE_ERROR, doms)
      | some r => (r.domh, r.doms)

/-! ### Teardown (`dds_domain_free`, lines 318-351) -/

/-- `dds_domain_free` (lines 318-351): invoked by the entity primitive once
the ownership refcount of the domain reaches zero.  Returns the return code,
the registry and monitor state afterwards, and the ordered action trace. -/
def dds_domain_free (dom : DomainSt) (doms : Registry) (mon : MonSt) :
    Int × Registry × MonSt × List Act :=
  let t1 := [Act.rtpsStop, Act.builtinFini]
    ++ (if dom.config.liveliness_monitoring then [Act.threadmonUnregisterDomain] else [])
    ++ (if dom.config.enable_shm then [Act.shmMonitorDestroy] else [])
    ++ [Act.rtpsFini]
  -- under dds_global.m_mutex:
  let rel := if dom.config.liveliness_monitoring then threadmon_release mon else (mon, [])
  let t2 := rel.2 ++ [Act.avlDelete, Act.finalDeinitBeforeFree]
    ++ (if dom.hasCfgst then [Act.configFini] else [])
    ++ [Act.freeDomain, Act.condBroadcast]
  (DDS_RETCODE_NO_DATA, avl_delete doms dom.m_id, rel.1, t1 ++ t2)

/-! ### Harnesses and specification-side definitions used by the theorems -/

/-- Serialized execution of a batch of explicit (`implicit = false`) creation
calls with the same requested id: `dds_global.m_mutex` linearizes concurrent
creators, so any concurrent execution is equivalent to some order of the
per-call critical sections.  Each element of the list is the
`dds_domain_init` outcome of the corresponding call (used only if that call
reaches the fresh-initialization path); the result counts the calls that
returned a success (a nonnegative handle). -/
def runExplicitCreates (id : Nat) : Registry → List (Except Int DomainSt) → Nat
  | _, [] => 0
  | doms, ir :: rest =>
    match dds_domain_create_internal_xml_or_raw doms id false ir [] with
    | none => runExplicitCreates id doms rest
    | some r => (if 0 ≤ r.domh then 1 else 0) + runExplicitCreates id r.doms rest

/-- The teardown sequence as the specification states it: stop protocol
stack, finalize built-in topics, unregister from the liveliness monitor if
monitoring was enabled, destroy the shared-memory monitor if enabled,
finalize the protocol stack, then under the registry mutex stop/destroy the
monitor singleton on the last-refcount transition, remove the domain from
the registry, run the entity primitive's pre-free finalization, release
parsed configuration state if present, free the memory, broadcast the
registry condition variable. -/
def specTeardownTrace (monitoring shm cfgst lastRef : Bool) : List Act :=
  [Act.rtpsStop, Act.builtinFini]
  ++ (if monitoring then [Act.threadmonUnregisterDomain] else [])
  ++ (if shm then [Act.shmMonitorDestroy] else [])
  ++ [Act.rtpsFini]
  ++ (if monitoring && lastRef then [Act.threadmonStop, Act.threadmonFree] else [])
  ++ [Act.avlDelete, Act.finalDeinitBeforeFree]
  ++ (if cfgst then [Act.configFini] else [])
  ++ [Act.freeDomain, Act.condBroadcast]

/-- Monitor singleton state right after a successful acquire, as a function
of the state before it (used to state the compensation of the acquire
step). -/
def monAfterAcquire (m : MonSt) : MonSt :=
  if m.count = 0 then ⟨1, true⟩ else ⟨m.count + 1, m.inst⟩

/-- Compensating actions of each completed initialization step, as run by
the `fail_*` unwind chain.  `rtpsConfigPrep` only derives state inside the
domain object itself and has no compensating call; `shmMonitorInit` has a
compensating call (`shm_monitor_destroy`, used by teardown) but the unwind
chain never invokes it — defining its compensation as empty is exactly the
amendment claim C3 requires. -/
def stepComp (monAfter : MonSt) : Act → List Act
  | .entityInit => [Act.handleDelete]
  | .configResolve parsed => if parsed then [Act.configFini] else []
  | .rtpsInit => [Act.rtpsFini]
  | .threadmonAcquire => (threadmon_unwind_after_start monAfter).2
  | .builtinInit => [Act.builtinFini]
  | _ => []

/-- Reverse-order compensation of a list of completed forward steps. -/
def unwindOf (monAfter : MonSt) (fwd : List Act) : List Act :=
  fwd.reverse.flatMap (stepComp monAfter)

/-! ### Interleaving model for the monitor singleton (claim C5)

`dds_global.m_mutex` is held across `dds_domain_init` (taken at line 220 of
the creation protocol) and across the monitor section of `dds_domain_free`
(line 336), so every monitor-state mutation is serialized: an arbitrary
interleaving of domain creations and destructions is some sequence of the
following events. -/

/-- One serialized lifecycle event: a domain creation attempt (with the
outcomes of `ddsi_threadmon_new`, `ddsi_threadmon_start` and of the
initialization steps after the monitor section), or the teardown of a live
domain. -/
inductive DomEvent where
  | create (monitoring newOk startOk laterOk : Bool)
  | free (monitoring : Bool)
  deriving Repr, DecidableEq

/-- Observable system state between critical sections: the monitor singleton
state and the number of live (successfully initialized, not yet torn down)
domains with `liveliness_monitoring` enabled. -/
structure SysSt where
  mon : MonSt
  liveMon : Nat
  deriving Repr, DecidableEq

/-- Effect of one event on the observable state, composed from the
monitor primitives exactly as the code paths run them: a monitoring-enabled
creation acquires; if a later step fails (`laterOk = false`, the
`fail_rtps_start` path) it unwinds the acquire again; teardown of a live
monitoring-enabled domain releases. -/
def stepEvent (s : SysSt) : DomEvent → SysSt
  | .create monitoring newOk startOk laterOk =>
    if !monitoring then s
    else
      let acq := threadmon_acquire newOk startOk s.mon
      match acq.2.1 with
      | .error _ => { mon := acq.1, liveMon := s.liveMon }
      | .ok _ =>
        if laterOk then { mon := acq.1, liveMon := s.liveMon + 1 }
        else { mon := (threadmon_unwind_after_start acq.1).1, liveMon := s.liveMon }
  | .free monitoring =>
    if !monitoring then s
    else { mon := (threadmon_release s.mon).1, liveMon := s.liveMon - 1 }

/-- The monitor singleton invariant: the refcount equals the number of live
monitoring-enabled domains (hence is never negative) and the instance is
present iff that count is positive. -/
def MonInv (s : SysSt) : Prop :=
  s.mon.count = (s.liveMon : Int) ∧ s.mon.inst = decide (0 < s.liveMon)

/-- The initial state: no domains, no monitor (`dds_global` starts with a
NULL `threadmon` and a zero `threadmon_count`). -/
def sysInit : SysSt := ⟨⟨0, false⟩, 0⟩

/-! ## Theorems -/

/-- **C7.** In `wait_for_type`, for every current time `tnow` and timeout,
the computed absolute deadline (line 500) is `tnow + timeout` whenever that
sum stays below the maximum duration sentinel `DDS_INFINITY`, and saturates
to the never-sentinel `DDS_NEVER` (instead of overflowing) whenever
`tnow + timeout` would reach or exceed it; in particular a timeout equal to
`DDS_INFINITY` always yields `DDS_NEVER`. -/
theorem wait_abstimeout_exact_or_never (tnow timeout : Int) (ht : 0 ≤ tnow) :
    (tnow + timeout < DDS_INFINITY → wait_abstimeout tnow timeout = tnow + timeout) ∧
    (DDS_INFINITY ≤ tnow + timeout → wait_abstimeout tnow timeout = DDS_NEVER) ∧
    wait_abstimeout tnow DDS_INFINITY = DDS_NEVER := by
  simp only [wait_abstimeout, DDS_INFINITY, DDS_NEVER]
  refine ⟨fun h => ?_, fun h => ?_, ?_⟩
  · rw [if_neg (by omega)]
  · rw [if_pos (by omega)]
  · rw [if_pos (by omega)]

/-- Witness for C7 at a concrete input. -/
theorem wait_abstimeout_exact_or_never_witness :
    wait_abstimeout 1000 DDS_INFINITY = DDS_NEVER :=
  (wait_abstimeout_exact_or_never 1000 3 (by decide)).2.2

/-- **C9.** `dds_create_domain` and `dds_create_domain_with_rawconfig`
called with the sentinel domain id, and `dds_create_domain_with_rawconfig`
called with a NULL configuration (its configuration argument is mandatory;
`dds_create_domain` substitutes `""` for a NULL XML string instead), fail
with Bad-Parameter and leave the registry untouched — the checks run before
`dds_init` and before any registry access. -/
theorem create_domain_rejects_sentinel_and_null :
    ∀ (cfg : Option String) (craw : Option Config) (id : Nat)
      (ddsInit : Except Int Unit) (doms : Registry)
      (initRes : Except Int DomainSt) (snaps : List Registry),
      dds_create_domain DDS_DOMAIN_DEFAULT cfg ddsInit doms initRes snaps
        = (DDS_RETCODE_BAD_PARAMETER, doms) ∧
      dds_create_domain_with_rawconfig DDS_DOMAIN_DEFAULT craw ddsInit doms initRes snaps
        = (DDS_RETCODE_BAD_PARAMETER, doms) ∧
      dds_create_domain_with_rawconfig id none ddsInit doms initRes snaps
        = (DDS_RETCODE_BAD_PARAMETER, doms) := by
  intro cfg craw id ddsInit doms initRes snaps
  refine ⟨?_, ?_, ?_⟩
  · simp [dds_create_domain]
  · simp [dds_create_domain_with_rawconfig]
  · by_cases h : id = DDS_DOMAIN_DEFAULT <;>
      simp [dds_create_domain_with_rawconfig, h]

/-- **C10.** In `wait_for_type`, a well-formed hash-based type identifier
with no record in the domain's type library returns Precondition-Not-Met
immediately, for every timeout value: the out parameters keep their initial
contents, no network resolution request is issued (`requested = false`), and
the result does not depend on any wait-loop environment (the universally
quantified `relocked`/`wakeups`), i.e. no blocking occurs.  The code path
(lines 466-471) performs no type-library mutation: `ddsi_type_lookup_locked`
is a pure lookup and the branch goes straight to `err_unlock`. -/
theorem wait_for_type_unknown_id_precondition :
    ∀ (timeout : Int) (wantS wantT : Bool) (s0 t0 : Option Nat) (requestOk : Bool)
      (relocked : TypeRecord) (wakeups : List TypeRecord),
      wait_for_type_resolved false true (.pinned true) timeout wantS wantT s0 t0
        none requestOk relocked wakeups
        = ⟨DDS_RETCODE_PRECONDITION_NOT_MET, s0, t0, false⟩ := by
  intro timeout wantS wantT s0 t0 requestOk relocked wakeups
  simp [wait_for_type_resolved]

/-- **C6.** `dds_domain_free` performs exactly the teardown sequence the
specification states — stop protocol stack, finalize built-in topics,
unregister from the liveliness monitor if monitoring was enabled, destroy
the shared-memory monitor if enabled, finalize the protocol stack, then
under the registry mutex stop+destroy the monitor singleton exactly on the
last-refcount transition (`--threadmon_count == 0`, i.e. the count was 1),
remove the domain from the registry, run the entity primitive's pre-free
finalization, release parsed configuration state if present, free the
domain's memory as the last action before broadcasting the registry
condition variable — and returns `DDS_RETCODE_NO_DATA`. -/
theorem domain_free_follows_spec_sequence :
    ∀ (dom : DomainSt) (doms : Registry) (mon : MonSt),
      (dds_domain_free dom doms mon).1 = DDS_RETCODE_NO_DATA ∧
      (dds_domain_free dom doms mon).2.2.2 =
        specTeardownTrace dom.config.liveliness_monitoring dom.config.enable_shm
          dom.hasCfgst (decide (mon.count = 1)) ∧
      (dds_domain_free dom doms mon).2.1 = avl_delete doms dom.m_id := by
  intro dom doms mon
  refine ⟨rfl, ?_, rfl⟩
  simp only [dds_domain_free, specTeardownTrace, threadmon_release]
  have hd : (decide (mon.count = 1)) = (if mon.count - 1 = 0 then true else false) := by
    by_cases h1 : mon.count - 1 = 0
    · simp [h1, show mon.count = 1 by omega]
    · simp [h1, show ¬mon.count = 1 by omega]
  by_cases hm : dom.config.liveliness_monitoring <;>
    by_cases hc : mon.count - 1 = 0 <;>
    simp [hm, hc, hd]

/-- **C2.** In `wait_for_type_resolved`, the Timeout code is returned only
when the timeout is zero and the type was not already cached/resolved at
lookup time (first conjunct); and for every positive timeout, when the
deadline expires without the type becoming resolved (the wait loop ends
unresolved), the call returns success with the sertype out parameter written
NULL and the type-object out parameter left untouched — not a Timeout error
(second conjunct). -/
theorem wait_for_type_timeout_asymmetry :
    (∀ (tin tih : Bool) (pin : PinOutcome) (timeout : Int) (wantS wantT : Bool)
        (s0 t0 : Option Nat) (lookup : Option TypeRecord) (requestOk : Bool)
        (relocked : TypeRecord) (wakeups : List TypeRecord),
        (wait_for_type_resolved tin tih pin timeout wantS wantT s0 t0 lookup
          requestOk relocked wakeups).rc = DDS_RETCODE_TIMEOUT →
        timeout = 0 ∧ ∃ t, lookup = some t ∧
          (wantS && t.sertype.isSome) = false ∧ (wantT && t.resolved false) = false) ∧
    (∀ (timeout : Int) (wantS wantT : Bool) (s0 t0 : Option Nat) (t : TypeRecord)
        (relocked : TypeRecord) (wakeups : List TypeRecord),
        0 < timeout →
        (wantS && t.sertype.isSome) = false →
        (wantT && t.resolved false) = false →
        (waitLoop wantS relocked wakeups).resolved wantS = false →
        wait_for_type_resolved false true (.pinned true) timeout wantS wantT s0 t0
          (some t) true relocked wakeups
          = ⟨DDS_RETCODE_OK, if wantS then none else s0, t0, true⟩) := by
  constructor
  · intro tin tih pin timeout wantS wantT s0 t0 lookup requestOk relocked wakeups h
    by_cases h1 : (tin || !tih) = true
    · simp [wait_for_type_resolved, h1, DDS_RETCODE_BAD_PARAMETER,
        DDS_RETCODE_TIMEOUT] at h
    · cases pin with
      | badParameter =>
        simp [wait_for_type_resolved, h1, DDS_RETCODE_BAD_PARAMETER,
          DDS_RETCODE_TIMEOUT] at h
      | alreadyDeleted =>
        simp [wait_for_type_resolved, h1, DDS_RETCODE_ALREADY_DELETED,
          DDS_RETCODE_TIMEOUT] at h
      | pinned hasDomain =>
        cases hasDomain with
        | false =>
          simp [wait_for_type_resolved, h1, DDS_RETCODE_ILLEGAL_OPERATION,
            DDS_RETCODE_TIMEOUT] at h
        | true =>
          cases lookup with
          | none =>
            simp [wait_for_type_resolved, h1, DDS_RETCODE_PRECONDITION_NOT_MET,
              DDS_RETCODE_TIMEOUT] at h
          | some t =>
            by_cases c1 : (wantS && t.sertype.isSome) = true
            · simp [wait_for_type_resolved, h1, c1, DDS_RETCODE_OK,
                DDS_RETCODE_TIMEOUT] at h
            · by_cases c2 : (wantT && t.resolved false) = true
              · simp [wait_for_type_resolved, h1, c1, c2, DDS_RETCODE_OK,
                  DDS_RETCODE_TIMEOUT] at h
              · by_cases c3 : timeout = 0
                · exact ⟨c3, t, rfl, by simpa using c1, by simpa using c2⟩
                · by_cases c4 : requestOk = true
                  · by_cases c5 : ((waitLoop wantS relocked wakeups).resolved wantS) = true
                    · simp [wait_for_type_resolved, h1, c1, c2, c3, c4, c5,
                        DDS_RETCODE_OK, DDS_RETCODE_TIMEOUT] at h
                    · simp [wait_for_type_resolved, h1, c1, c2, c3, c4, c5,
                        DDS_RETCODE_OK, DDS_RETCODE_TIMEOUT] at h
                  · simp [wait_for_type_resolved, h1, c1, c2, c3, c4,
                      DDS_RETCODE_PRECONDITION_NOT_MET, DDS_RETCODE_TIMEOUT] at h
  · intro timeout wantS wantT s0 t0 t relocked wakeups ht c1 c2 c5
    have c3 : ¬timeout = 0 := by omega
    simp [wait_for_type_resolved, c1, c2, c3, c5]

/-- Witness for C2 at a concrete input: timeout 1, sertype requested, record
present but unresolved, the deadline expires with no wakeup — success with a
NULL sertype, an untouched type-object slot, and one issued request. -/
theorem wait_for_type_timeout_asymmetry_witness :
    wait_for_type_resolved false true (.pinned true) 1 true false (some 5) none
      (some ⟨none, false, false, none⟩) true ⟨none, false, false, none⟩ []
      = ⟨DDS_RETCODE_OK, none, none, true⟩ := by
  have := wait_for_type_timeout_asymmetry.2 1 true false (some 5) none
    ⟨none, false, false, none⟩ ⟨none, false, false, none⟩ []
    (by decide) (by decide) (by decide) (by decide)
  simpa using this

/-- For a raw configuration source, once the entity registration succeeded,
the domain fields produced by `dds_domain_init` (on every path, success or
later failure) copy the raw configuration, overriding its id field with the
caller's id when that id is concrete. -/
theorem init_raw_dom_eq (env : InitEnv) (r : Config) (id : Nat) (mon : MonSt)
    (h : Int) (he : env.entityInit = .ok h) :
    (dds_domain_init env id (.raw r) mon).dom =
      { m_id := (if id ≠ DDS_DOMAIN_DEFAULT then { r with domainId := id } else r).domainId,
        hdl := h, iid := env.iid, closed := false, refcount := 1, pins := 1,
        config := if id ≠ DDS_DOMAIN_DEFAULT then { r with domainId := id } else r,
        hasCfgst := false } := by
  simp only [dds_domain_init, he, resolveConfig]
  repeat' split
  all_goals rfl

/-- **C8.** Domain id resolution for a raw (pre-parsed) configuration: the
configuration is copied into the domain; a concrete (non-sentinel) caller id
overrides the copied configuration's id field, while a sentinel caller id
keeps the configuration's own id; the stored `m_id` always equals the
resulting configuration id, and with a concrete caller id it equals that id
(hence is never the sentinel).  No parser state is owned (`cfgst = NULL`). -/
theorem init_raw_config_id_resolution :
    ∀ (env : InitEnv) (r : Config) (id : Nat) (mon : MonSt) (h : Int),
      env.entityInit = .ok h →
      (dds_domain_init env id (.raw r) mon).dom.config =
        { r with domainId := if id ≠ DDS_DOMAIN_DEFAULT then id else r.domainId } ∧
      (dds_domain_init env id (.raw r) mon).dom.m_id =
        (dds_domain_init env id (.raw r) mon).dom.config.domainId ∧
      (dds_domain_init env id (.raw r) mon).dom.hasCfgst = false ∧
      (id ≠ DDS_DOMAIN_DEFAULT →
        (dds_domain_init env id (.raw r) mon).dom.m_id = id ∧
        (dds_domain_init env id (.raw r) mon).dom.m_id ≠ DDS_DOMAIN_DEFAULT) ∧
      (id = DDS_DOMAIN_DEFAULT →
        (dds_domain_init env id (.raw r) mon).dom.m_id = r.domainId) := by
  intro env r id mon h he
  rw [init_raw_dom_eq env r id mon h he]
  by_cases hid : id = DDS_DOMAIN_DEFAULT <;> simp [hid]

/-- Witness for C8: a concrete caller id 5 over a raw configuration whose
own id is 3 stores id 5. -/
theorem init_raw_config_id_resolution_witness :
    (dds_domain_init ⟨.ok 7, 1, none, true, true, true, true, true⟩ 5
        (.raw ⟨3, false, false, false, 0⟩) ⟨0, false⟩).dom.m_id = 5 ∧
    (dds_domain_init ⟨.ok 7, 1, none, true, true, true, true, true⟩ 5
        (.raw ⟨3, false, false, false, 0⟩) ⟨0, false⟩).dom.hasCfgst = false :=
  ⟨((init_raw_config_id_resolution ⟨.ok 7, 1, none, true, true, true, true, true⟩
      ⟨3, false, false, false, 0⟩ 5 ⟨0, false⟩ 7 rfl).2.2.2.1 (by decide)).1,
   (init_raw_config_id_resolution ⟨.ok 7, 1, none, true, true, true, true, true⟩
      ⟨3, false, false, false, 0⟩ 5 ⟨0, false⟩ 7 rfl).2.2.1⟩

/-- Any attempt produced by the retry loop classifies the registry snapshot
it returns, and is never the wait case (waiting always re-enters the loop). -/
theorem createRetry_sound (id : Nat) (implicit : Bool) :
    ∀ (snaps : List Registry) (doms : Registry) (a : Attempt) (ds : Registry),
      createRetry id implicit doms snaps = some (a, ds) →
      lookupAttempt ds id implicit = a ∧ a ≠ Attempt.wait := by
  intro snaps
  induction snaps with
  | nil =>
    intro doms a ds h
    rw [createRetry] at h
    split at h
    · cases h
    · rename_i a' hne
      simp only [Option.some.injEq, Prod.mk.injEq] at h
      obtain ⟨h1, h2⟩ := h
      subst h2
      exact ⟨h1, fun hw => hne (h1.trans hw)⟩
  | cons s rest ih =>
    intro doms a ds h
    rw [createRetry] at h
    split at h
    · exact ih s a ds h
    · rename_i a' hne
      simp only [Option.some.injEq, Prod.mk.injEq] at h
      obtain ⟨h1, h2⟩ := h
      subst h2
      exact ⟨h1, fun hw => hne (h1.trans hw)⟩

/-- A share classification only arises from a found, non-closed domain. -/
theorem lookupAttempt_share (doms : Registry) (id : Nat) (implicit : Bool)
    (d : DomainSt) (h : lookupAttempt doms id implicit = .share d) :
    d.closed = false := by
  unfold lookupAttempt at h
  cases hfind : (if id ≠ DDS_DOMAIN_DEFAULT then dds_domain_find_locked doms id
      else avl_find_min doms) with
  | none => rw [hfind] at h; cases h
  | some d' =>
    rw [hfind] at h
    cases implicit with
    | false => simp at h
    | true =>
      by_cases hc : d'.closed = true
      · simp [hc] at h
      · simp only [Bool.not_true, Bool.false_eq_true, if_false] at h
        rw [if_neg (by simpa using hc)] at h
        cases h
        simpa using hc

/-- **C4.** An implicit domain acquisition never hands out a domain whose
entity is closed: whenever `dds_domain_create_internal_xml_or_raw` with
`implicit = true` writes `*domain_out`, that domain's closed flag is clear
(first conjunct; `hinit` states that a freshly initialized domain starts
with a clear closed flag, as established by `dds_domain_init`).  When the
looked-up domain is observed closed, the loop blocks on the registry
condition variable — with no further teardown broadcast it stays blocked
(second conjunct) — and after a wakeup it retries the whole lookup from the
start against the new registry snapshot (third conjunct). -/
theorem implicit_create_never_closed :
    (∀ (doms : Registry) (id : Nat) (initRes : Except Int DomainSt)
        (snaps : List Registry) (res : CreateRes) (d : DomainSt),
        (∀ dn, initRes = .ok dn → dn.closed = false) →
        dds_domain_create_internal_xml_or_raw doms id true initRes snaps = some res →
        res.dom_out = some d →
        d.closed = false) ∧
    (∀ (doms : Registry) (id : Nat),
        lookupAttempt doms id true = .wait →
        createRetry id true doms [] = none) ∧
    (∀ (doms s : Registry) (rest : List Registry) (id : Nat),
        lookupAttempt doms id true = .wait →
        createRetry id true doms (s :: rest) = createRetry id true s rest) := by
  refine ⟨?_, ?_, ?_⟩
  · intro doms id initRes snaps res d hinit hcreate hout
    unfold dds_domain_create_internal_xml_or_raw at hcreate
    cases hr : createRetry id true doms snaps with
    | none => rw [hr] at hcreate; cases hcreate
    | some p =>
      obtain ⟨a, ds⟩ := p
      rw [hr] at hcreate
      obtain ⟨hla, hnw⟩ := createRetry_sound id true snaps doms a ds hr
      cases a with
      | wait => exact absurd rfl hnw
      | preconditionNotMet =>
        cases hcreate
        simp at hout
      | share d0 =>
        cases hcreate
        simp only [CreateRes.dom_out, Option.some.injEq] at hout
        rw [← hout]
        simpa [shareDomain] using lookupAttempt_share ds id true d0 hla
      | fresh =>
        cases initRes with
        | error rc => cases hcreate; simp at hout
        | ok dnew =>
          cases hcreate
          simp only [CreateRes.dom_out, Option.some.injEq] at hout
          rw [← hout]
          simpa [shareDomain] using hinit dnew rfl
  · intro doms id hw
    rw [createRetry, hw]
  · intro doms s rest id hw
    rw [createRetry, hw]

/-- Witness for C4: an implicit acquisition of id 5 against a registry
holding one open domain with id 5 shares that domain, and the handed-out
domain has a clear closed flag. -/
theorem implicit_create_never_closed_witness :
    (shareDomain ⟨5, 7, 1, false, 1, 1, ⟨5, false, false, false, 0⟩, false⟩).closed
      = false :=
  implicit_create_never_closed.1
    [⟨5, 7, 1, false, 1, 1, ⟨5, false, false, false, 0⟩, false⟩] 5
    (.error (-1)) []
    ⟨7, [shareDomain ⟨5, 7, 1, false, 1, 1, ⟨5, false, false, false, 0⟩, false⟩],
      some (shareDomain ⟨5, 7, 1, false, 1, 1, ⟨5, false, false, false, 0⟩, false⟩),
      false⟩
    (shareDomain ⟨5, 7, 1, false, 1, 1, ⟨5, false, false, false, 0⟩, false⟩)
    (fun _ h => nomatch h) (by decide) rfl

/-- Inserting a domain makes it a member of the registry. -/
theorem mem_avl_insert_self (d : DomainSt) : ∀ ds : Registry, d ∈ avl_insert d ds := by
  intro ds
  induction ds with
  | nil => simp [avl_insert]
  | cons x xs ih =>
    rw [avl_insert]
    split
    · exact List.mem_cons_self ..
    · exact List.mem_cons_of_mem x ih

/-- A registry member with the looked-up key makes the lookup succeed. -/
theorem find_locked_isSome_of_mem (id : Nat) (d : DomainSt) :
    ∀ doms : Registry, d ∈ doms → d.m_id = id →
      (dds_domain_find_locked doms id).isSome = true := by
  intro doms
  induction doms with
  | nil => intro h; cases h
  | cons x xs ih =>
    intro hmem hid
    rw [dds_domain_find_locked]
    by_cases hx : x.m_id = id
    · simp [hx]
    · rw [if_neg hx]
      cases List.mem_cons.mp hmem with
      | inl he => exact absurd (he ▸ hid) hx
      | inr ht => exact ih ht hid

/-- When the very first lookup does not hit the wait case, the retry loop
returns that classification against the initial registry. -/
theorem createRetry_of_not_wait (id : Nat) (implicit : Bool) (doms : Registry)
    (snaps : List Registry) (a : Attempt) (h : lookupAttempt doms id implicit = a)
    (hna : a ≠ Attempt.wait) :
    createRetry id implicit doms snaps = some (a, doms) := by
  cases snaps with
  | nil =>
    rw [createRetry, h]
    cases a with
    | wait => exact absurd rfl hna
    | preconditionNotMet => rfl
    | share d => rfl
    | fresh => rfl
  | cons s rest =>
    rw [createRetry, h]
    cases a with
    | wait => exact absurd rfl hna
    | preconditionNotMet => rfl
    | share d => rfl
    | fresh => rfl

/-- An explicit creation against a registry already holding the id returns
Precondition-Not-Met and changes nothing. -/
theorem explicit_collision_eq (doms : Registry) (id : Nat) (d : DomainSt)
    (ir : Except Int DomainSt) (snaps : List Registry)
    (hid : id ≠ DDS_DOMAIN_DEFAULT) (hfind : dds_domain_find_locked doms id = some d) :
    dds_domain_create_internal_xml_or_raw doms id false ir snaps
      = some ⟨DDS_RETCODE_PRECONDITION_NOT_MET, doms, none, false⟩ := by
  have hla : lookupAttempt doms id false = .preconditionNotMet := by
    unfold lookupAttempt
    rw [if_pos hid, hfind]
    rfl
  unfold dds_domain_create_internal_xml_or_raw
  rw [createRetry_of_not_wait id false doms snaps _ hla (by simp)]

/-- Once the id is present, a serialized batch of explicit creations with
that id yields no further success. -/
theorem runExplicitCreates_zero (id : Nat) (hid : id ≠ DDS_DOMAIN_DEFAULT) :
    ∀ (irs : List (Except Int DomainSt)) (doms : Registry),
      (dds_domain_find_locked doms id).isSome = true →
      runExplicitCreates id doms irs = 0 := by
  intro irs
  induction irs with
  | nil => intro doms _; rfl
  | cons ir rest ih =>
    intro doms hsome
    obtain ⟨d, hd⟩ := Option.isSome_iff_exists.mp hsome
    rw [runExplicitCreates, explicit_collision_eq doms id d ir [] hid hd]
    simpa [DDS_RETCODE_PRECONDITION_NOT_MET] using ih doms hsome

/-- **C1.** Explicit (non-implicit) creation with a concrete domain id:
if a domain with that id already exists in the registry the call fails with
Precondition-Not-Met, leaving the registry unchanged and writing no domain
out (first conjunct); and in every serialized batch of explicit creations
with the same concrete id (the registry mutex linearizes concurrent
callers), at most one call succeeds (second conjunct).  `hok` records what
`dds_domain_init` guarantees for a successful outcome — the resolved id
equals the requested concrete id (asserted at line 119 for XML and forced
by the override for raw configuration) and the handle is nonnegative;
`herr` records that failed initializations return negative codes (line 73
and the `fail_*` paths). -/
theorem explicit_create_unique :
    (∀ (doms : Registry) (id : Nat) (d : DomainSt) (ir : Except Int DomainSt)
        (snaps : List Registry),
        id ≠ DDS_DOMAIN_DEFAULT →
        dds_domain_find_locked doms id = some d →
        dds_domain_create_internal_xml_or_raw doms id false ir snaps
          = some ⟨DDS_RETCODE_PRECONDITION_NOT_MET, doms, none, false⟩) ∧
    (∀ (id : Nat) (doms : Registry) (irs : List (Except Int DomainSt)),
        id ≠ DDS_DOMAIN_DEFAULT →
        (∀ dn, Except.ok dn ∈ irs → dn.m_id = id ∧ 0 ≤ dn.hdl) →
        (∀ rc, Except.error rc ∈ irs → rc < 0) →
        runExplicitCreates id doms irs ≤ 1) := by
  constructor
  · intro doms id d ir snaps hid hfind
    exact explicit_collision_eq doms id d ir snaps hid hfind
  · intro id doms irs hid
    induction irs generalizing doms with
    | nil => intro _ _; simp [runExplicitCreates]
    | cons ir rest ih =>
      intro hok herr
      cases hfind : dds_domain_find_locked doms id with
      | some d =>
        rw [runExplicitCreates_zero id hid (ir :: rest) doms (by simp [hfind])]
        omega
      | none =>
        have hla : lookupAttempt doms id false = .fresh := by
          unfold lookupAttempt
          rw [if_pos hid, hfind]
        rw [runExplicitCreates]
        unfold dds_domain_create_internal_xml_or_raw
        rw [createRetry, hla]
        cases ir with
        | error rc =>
          have hrc : rc < 0 := herr rc (by simp)
          simp only []
          rw [if_neg (by omega)]
          have := ih doms (fun dn h => hok dn (by simp [h]))
            (fun rc' h => herr rc' (by simp [h]))
          omega
        | ok dnew =>
          obtain ⟨hm, hh⟩ := hok dnew (by simp)
          simp only [Bool.false_eq_true, if_false]
          rw [if_pos hh]
          have hz : runExplicitCreates id (avl_insert dnew doms) rest = 0 :=
            runExplicitCreates_zero id hid rest (avl_insert dnew doms)
              (find_locked_isSome_of_mem id dnew (avl_insert dnew doms)
                (mem_avl_insert_self dnew doms) hm)
          omega

/-- Witness for C1: one successful explicit creation of id 5 into an empty
registry followed by nothing — the batch has exactly one success. -/
theorem explicit_create_unique_witness :
    runExplicitCreates 5 []
      [Except.ok ⟨5, 7, 1, false, 1, 1, ⟨5, false, false, false, 0⟩, false⟩] ≤ 1 :=
  explicit_create_unique.2 5 []
    [Except.ok ⟨5, 7, 1, false, 1, 1, ⟨5, false, false, false, 0⟩, false⟩]
    (by decide)
    (by
      intro dn h
      simp only [List.mem_singleton, Except.ok.injEq] at h
      subst h
      exact ⟨rfl, by decide⟩)
    (by intro rc h; simp at h)

/-- Counterexample to C3 as stated: with shared memory enabled and
`rtps_start` failing, the shared-memory monitor initialization is a
previously completed step, yet the unwind chain (lines 188-206) contains no
`shm_monitor_destroy` — not every previously completed step is undone. -/
theorem init_shm_step_not_undone :
    (dds_domain_init ⟨.ok 7, 1, none, true, true, true, true, false⟩ 5
        (.raw ⟨5, false, true, false, 0⟩) ⟨0, false⟩).domh < 0 ∧
    Act.shmMonitorInit ∈ (dds_domain_init ⟨.ok 7, 1, none, true, true, true, true, false⟩ 5
        (.raw ⟨5, false, true, false, 0⟩) ⟨0, false⟩).fwd ∧
    Act.shmMonitorDestroy ∉ (dds_domain_init ⟨.ok 7, 1, none, true, true, true, true, false⟩ 5
        (.raw ⟨5, false, true, false, 0⟩) ⟨0, false⟩).undo := by
  decide

/-- **C3 (amended).** If any step of the initialization sequence fails, the
`fail_*` chain undoes exactly the previously completed steps that have a
compensating action, in reverse completion order — entity registration ↦
handle delete, XML parse ↦ config release, RTPS init ↦ RTPS finalize,
monitor acquire ↦ monitor release, builtin init ↦ builtin finalize — with
the exception that the shared-memory monitor initialization (and the
stateless RTPS config preparation) has no compensation on the failure path;
the error code of the failing step is propagated, and on the fresh-creation
path the caller releases the allocated domain object, inserts nothing, and
returns that error with the registry unchanged.  `hh` records that
`dds_entity_init` returns nonnegative handles on success. -/
theorem init_failure_unwinds :
    ∀ (env : InitEnv) (id : Nat) (config : ConfigSource) (mon : MonSt),
      (∀ h, env.entityInit = .ok h → 0 ≤ h) →
      (dds_domain_init env id config mon).domh < 0 →
      (dds_domain_init env id config mon).undo
          = unwindOf (monAfterAcquire mon) (dds_domain_init env id config mon).fwd ∧
      (∀ (doms : Registry) (implicit : Bool) (snaps : List Registry),
        lookupAttempt doms id implicit = .fresh →
        dds_domain_create_internal_xml_or_raw doms id implicit
            (.error (dds_domain_init env id config mon).domh) snaps
          = some ⟨(dds_domain_init env id config mon).domh, doms, none, true⟩) := by
  intro env id config mon hh hlt
  constructor
  · cases henv : env.entityInit with
    | error e => simp [dds_domain_init, henv, unwindOf]
    | ok h =>
      have h0 : 0 ≤ h := hh h henv
      simp only [dds_domain_init, henv] at hlt ⊢
      cases hcfg : resolveConfig id config env with
      | none => simp [hcfg, unwindOf, stepComp]
      | some p =>
        obtain ⟨cfg, hasCfgst⟩ := p
        simp only [hcfg] at hlt ⊢
        by_cases hprep : env.rtpsConfigPrepOk
        case neg =>
          by_cases hcs : hasCfgst <;> simp [hprep, hcs, unwindOf, stepComp]
        case pos =>
        by_cases hini : env.rtpsInitOk
        case neg =>
          by_cases hcs : hasCfgst <;> simp [hprep, hini, hcs, unwindOf, stepComp]
        case pos =>
        simp only [hprep, hini] at hlt ⊢
        by_cases hmonit : cfg.liveliness_monitoring
        case neg =>
          by_cases hstart : env.rtpsStartOk
          case pos =>
            -- success path: contradiction with a negative return value
            simp [hmonit, hstart] at hlt
            omega
          case neg =>
            by_cases hcs : hasCfgst <;> by_cases hshm : cfg.enable_shm <;>
              simp [hmonit, hstart, hcs, hshm, unwindOf, stepComp,
                threadmon_unwind_after_start]
        case pos =>
        by_cases hm0 : mon.count = 0
        case pos =>
          by_cases hnew : env.threadmonNewOk
          case neg =>
            by_cases hcs : hasCfgst <;> by_cases hshm : cfg.enable_shm <;>
              simp [hmonit, hm0, hnew, threadmon_acquire, hcs, hshm, unwindOf, stepComp]
          case pos =>
          by_cases hst : env.threadmonStartOk
          case neg =>
            by_cases hcs : hasCfgst <;> by_cases hshm : cfg.enable_shm <;>
              simp [hmonit, hm0, hnew, hst, threadmon_acquire, hcs, hshm,
                unwindOf, stepComp]
          case pos =>
          by_cases hstart : env.rtpsStartOk
          case pos =>
            simp [hmonit, hm0, hnew, hst, hstart, threadmon_acquire] at hlt
            omega
          case neg =>
            by_cases hcs : hasCfgst <;> by_cases hshm : cfg.enable_shm <;>
              simp [hmonit, hm0, hnew, hst, hstart, threadmon_acquire, hcs, hshm,
                unwindOf, stepComp, threadmon_unwind_after_start, monAfterAcquire]
        case neg =>
          by_cases hstart : env.rtpsStartOk
          case pos =>
            simp [hmonit, hm0, hstart, threadmon_acquire] at hlt
            omega
          case neg =>
            by_cases hcs : hasCfgst <;> by_cases hshm : cfg.enable_shm <;>
              simp [hmonit, hm0, hstart, threadmon_acquire, hcs, hshm,
                unwindOf, stepComp, threadmon_unwind_after_start, monAfterAcquire]
  · intro doms implicit snaps hla
    unfold dds_domain_create_internal_xml_or_raw
    rw [createRetry_of_not_wait id implicit doms snaps _ hla (by simp)]

/-- Witness for C3 (amended) at a concrete failing input (shared memory
enabled, `rtps_start` failing). -/
theorem init_failure_unwinds_witness :
    (dds_domain_init ⟨.ok 7, 1, none, true, true, true, true, false⟩ 5
        (.raw ⟨5, false, true, false, 0⟩) ⟨0, false⟩).undo
      = unwindOf (monAfterAcquire ⟨0, false⟩)
          (dds_domain_init ⟨.ok 7, 1, none, true, true, true, true, false⟩ 5
            (.raw ⟨5, false, true, false, 0⟩) ⟨0, false⟩).fwd :=
  (init_failure_unwinds ⟨.ok 7, 1, none, true, true, true, true, false⟩ 5
    (.raw ⟨5, false, true, false, 0⟩) ⟨0, false⟩
    (fun h hE => by injection hE with h7; omega) (by decide)).1

/-- **C5 (code bug).** The claimed singleton invariant — instance present
iff the refcount is positive, refcount equal to the number of live
monitoring-enabled domains, each 0→1/1→0 transition matched by exactly one
construction/destruction — holds in the initial state (first conjunct) but
is broken by the code when `ddsi_threadmon_new` fails: `goto
fail_threadmon_new` (line 162) lands at line 198, past the
`--dds_global.threadmon_count` of line 193, so after the failed creation
event the count is left at 1 with no instance and zero live
monitoring-enabled domains (second and third conjuncts; the fourth states
the raw acquire outcome).  After the leak, a further monitoring-enabled
creation sees a positive count, constructs nothing (empty action list) and
still reports success with no instance present (fifth and sixth conjuncts)
— it would then register its domain with the NULL monitor at line 184. -/
theorem threadmon_new_failure_leaks_count :
    MonInv sysInit ∧
    stepEvent sysInit (DomEvent.create true false false false)
      = ⟨⟨1, false⟩, 0⟩ ∧
    ¬MonInv (stepEvent sysInit (DomEvent.create true false false false)) ∧
    threadmon_acquire false false ⟨0, false⟩
      = (⟨1, false⟩, .error DDS_RETCODE_OUT_OF_RESOURCES, []) ∧
    (threadmon_acquire true true ⟨1, false⟩).2.2 = [] ∧
    (threadmon_acquire true true ⟨1, false⟩).1.inst = false := by
  refine ⟨by simp [MonInv, sysInit], rfl, ?_, rfl, rfl, rfl⟩
  intro h
  rw [show stepEvent sysInit (DomEvent.create true false false false)
      = (⟨⟨1, false⟩, 0⟩ : SysSt) from rfl] at h
  simp [MonInv] at h

end CycloneDDS
